import Mathlib

/-!
Verification of the libpayments ledger engine.

This file embeds the transaction record model and the per-transaction
processing functions of `libpayments/src/transaction.rs` (the engine of the
payments-engine workspace), together with the per-client fold that the
library's tests drive, and proves the specified properties of the
dispute/resolve/chargeback lifecycle.

Currency amounts are `f32` in the source.  The main development models them
as exact rationals, which is faithful for every property whose content is the
engine's control flow and its own field updates.  The conservation identity
`total = available + held` depends on the numeric representation itself, so it
is additionally examined under a correctly-rounded binary32 model of the
arithmetic (`f32round`, `f32add`, `f32sub` and the `f32process` functions),
which exhibits the rounding defect of the real program.  Client and
transaction identifiers (`u16`/`u32`) are modelled as `Nat`; no arithmetic is
ever performed on them.
-/

/-- The five transaction kinds of `transaction.rs` (`TransactionType`). -/
inductive TransactionType where
  | deposit
  | withdrawal
  | dispute
  | resolve
  | chargeback
deriving DecidableEq, Repr

/-- A transaction record (`Transaction` in `transaction.rs`): kind, client id,
transaction id, and an optional amount. -/
structure Transaction where
  type : TransactionType
  client : Nat
  tx : Nat
  amount : Option ℚ
deriving DecidableEq, Repr

/-- The running account state (`ClientState` in `client.rs`). -/
structure ClientState where
  id : Nat
  available : ℚ
  held : ℚ
  total : ℚ
  locked : Bool
deriving DecidableEq, Repr

/-- `find_transaction` of `transaction.rs`: the first Deposit or Withdrawal
record in the log with the given transaction id. -/
def find_transaction (log : List Transaction) (tx : Nat) : Option Transaction :=
  log.find? fun t =>
    decide ((t.type = TransactionType.withdrawal ∨ t.type = TransactionType.deposit) ∧ t.tx = tx)

/-- `find_dispute` of `transaction.rs`: the first Dispute record in the log
with the given transaction id. -/
def find_dispute (log : List Transaction) (tx : Nat) : Option Transaction :=
  log.find? fun t => decide (t.type = TransactionType.dispute ∧ t.tx = tx)

/-- `find_resolve` of `transaction.rs`: the first Resolve record in the log
with the given transaction id. -/
def find_resolve (log : List Transaction) (tx : Nat) : Option Transaction :=
  log.find? fun t => decide (t.type = TransactionType.resolve ∧ t.tx = tx)

/-- `find_chargeback` of `transaction.rs`: the first Chargeback record in the
log with the given transaction id. -/
def find_chargeback (log : List Transaction) (tx : Nat) : Option Transaction :=
  log.find? fun t => decide (t.type = TransactionType.chargeback ∧ t.tx = tx)

namespace Transaction

/-- `Transaction::process_withdrawal`: subtract the amount from `available`
and `total` when funds suffice; otherwise, or when the amount is absent,
return the state unchanged. -/
def process_withdrawal (self : Transaction) (state : ClientState) : ClientState :=
  match self.amount with
  | some amount =>
      if state.available ≥ amount then
        { state with available := state.available - amount, total := state.total - amount }
      else state
  | none => state

/-- `Transaction::process_deposit`: add the amount to `available` and `total`;
when the amount is absent, return the state unchanged. -/
def process_deposit (self : Transaction) (state : ClientState) : ClientState :=
  match self.amount with
  | some amount =>
      { state with available := state.available + amount, total := state.total + amount }
  | none => state

/-- `Transaction::process_dispute`: when the referenced transaction is found in
the log and carries an amount, move the amount between `available` and `held`,
with opposite directions for a disputed Withdrawal and a disputed Deposit. -/
def process_dispute (self : Transaction) (state : ClientState) (log : List Transaction) :
    ClientState :=
  match find_transaction log self.tx with
  | some dt =>
      match dt.amount with
      | some amount =>
          if dt.type = TransactionType.withdrawal then
            { state with available := state.available + amount, held := state.held - amount }
          else if dt.type = TransactionType.deposit then
            { state with available := state.available - amount, held := state.held + amount }
          else state
      | none => state
  | none => state

/-- `Transaction::process_resolve`: when the referenced transaction is found,
some Dispute record on the same id is in the log, and no Chargeback record on
it is in the log, move the amount back between `held` and `available`,
per-kind. -/
def process_resolve (self : Transaction) (state : ClientState) (log : List Transaction) :
    ClientState :=
  match find_transaction log self.tx with
  | some dt =>
      if (find_dispute log self.tx).isSome && (find_chargeback log self.tx).isNone then
        match dt.amount with
        | some amount =>
            if dt.type = TransactionType.withdrawal then
              { state with held := state.held + amount, available := state.available - amount }
            else if dt.type = TransactionType.deposit then
              { state with held := state.held - amount, available := state.available + amount }
            else state
        | none => state
      else state
  | none => state

/-- `Transaction::process_chargeback`: when the referenced transaction is
found, some Dispute record on the same id is in the log, and no Resolve record
on it is in the log, move the amount between `held` and `total`, per-kind, and
set `locked`. -/
def process_chargeback (self : Transaction) (state : ClientState) (log : List Transaction) :
    ClientState :=
  match find_transaction log self.tx with
  | some dt =>
      if (find_dispute log self.tx).isSome && (find_resolve log self.tx).isNone then
        match dt.amount with
        | some amount =>
            let state1 :=
              if dt.type = TransactionType.withdrawal then
                { state with held := state.held + amount, total := state.total + amount }
              else if dt.type = TransactionType.deposit then
                { state with held := state.held - amount, total := state.total - amount }
              else state
            { state1 with locked := true }
        | none => state
      else state
  | none => state

/-- `Transaction::process`: dispatch on the transaction kind. -/
def process (self : Transaction) (state : ClientState) (log : List Transaction) : ClientState :=
  match self.type with
  | TransactionType.deposit => self.process_deposit state
  | TransactionType.withdrawal => self.process_withdrawal state
  | TransactionType.dispute => self.process_dispute state log
  | TransactionType.resolve => self.process_resolve state log
  | TransactionType.chargeback => self.process_chargeback state log

end Transaction

/-- The all-zero, unlocked initial account state for a client. -/
def initialState (id : Nat) : ClientState :=
  { id := id, available := 0, held := 0, total := 0, locked := false }

/-- Modelled from the spec: the per-client fold (`calc_state`, exercised by the
tests of `transaction.rs` but not itself present in the sources).  It drives
`Transaction.process` left to right, passing each transaction the log of the
records strictly before it, and — per the spec's terminal-on-lock policy —
stops applying further transactions once the state is locked. -/
def calcStateAux : ClientState → List Transaction → List Transaction → ClientState
  | state, _, [] => state
  | state, log, t :: rest =>
      if state.locked then state
      else calcStateAux (t.process state log) (log ++ [t]) rest

/-- Modelled from the spec: `calc_state`, folding a full client history from
the all-zero initial state. -/
def calc_state (id : Nat) (txs : List Transaction) : ClientState :=
  calcStateAux (initialState id) [] txs

/-- The account state after the first `n` transactions of a history. -/
def stateAfter (id : Nat) (txs : List Transaction) (n : Nat) : ClientState :=
  calcStateAux (initialState id) [] (txs.take n)

/-- The dispute lifecycle states of the spec's data model. -/
inductive DisputeStatus where
  | noDispute
  | disputed
  | resolved
  | chargedback
deriving DecidableEq, Repr

/-- Modelled from the spec: one step of the per-tx-id dispute status machine
(the code keeps no explicit status; the spec's `DisputeStatus` is derived by
replaying the history).  The accumulator carries whether the id has been seen
as a Deposit/Withdrawal, and the current status.  Transitions: a Dispute moves
`noDispute` (once the id has been seen) or `resolved` to `disputed`; a Resolve
moves `disputed` to `resolved`; a Chargeback moves `disputed` to
`chargedback`, which is terminal. -/
def specStatusStep (k : Nat) (acc : Bool × DisputeStatus) (t : Transaction) :
    Bool × DisputeStatus :=
  let seen := acc.1 ||
    decide ((t.type = TransactionType.deposit ∨ t.type = TransactionType.withdrawal) ∧ t.tx = k)
  let status :=
    if t.tx = k then
      match t.type, acc.2 with
      | TransactionType.dispute, DisputeStatus.noDispute =>
          if acc.1 then DisputeStatus.disputed else DisputeStatus.noDispute
      | TransactionType.dispute, DisputeStatus.resolved => DisputeStatus.disputed
      | TransactionType.resolve, DisputeStatus.disputed => DisputeStatus.resolved
      | TransactionType.chargeback, DisputeStatus.disputed => DisputeStatus.chargedback
      | _, st => st
    else acc.2
  (seen, status)

/-- Modelled from the spec: the dispute status of a transaction id after a
given log, per the spec's state machine. -/
def specDisputeStatus (log : List Transaction) (k : Nat) : DisputeStatus :=
  (log.foldl (specStatusStep k) (false, DisputeStatus.noDispute)).2

/-- A deposit record, as built by the library's tests. -/
def depT (tx : Nat) (a : ℚ) : Transaction :=
  { type := TransactionType.deposit, client := 0, tx := tx, amount := some a }

/-- A withdrawal record, as built by the library's tests. -/
def wdT (tx : Nat) (a : ℚ) : Transaction :=
  { type := TransactionType.withdrawal, client := 0, tx := tx, amount := some a }

/-- A dispute record, as built by the library's tests. -/
def dispT (tx : Nat) : Transaction :=
  { type := TransactionType.dispute, client := 0, tx := tx, amount := none }

/-- A resolve record, as built by the library's tests. -/
def resT (tx : Nat) : Transaction :=
  { type := TransactionType.resolve, client := 0, tx := tx, amount := none }

/-- A chargeback record, as built by the library's tests. -/
def cbT (tx : Nat) : Transaction :=
  { type := TransactionType.chargeback, client := 0, tx := tx, amount := none }

/-- Round a rational to the nearest integer, ties to even — the rounding of
IEEE-754 round-to-nearest-even once a value is scaled to its quantum. -/
def roundTiesEven (x : ℚ) : ℤ :=
  let f := ⌊x⌋
  let r := x - f
  if r < 1/2 then f
  else if 1/2 < r then f + 1
  else if f % 2 = 0 then f else f + 1

/-- The binary32 quantum exponent of a rational: a finite `f32` holds
24 significand bits, so a value in the binade `[2^e, 2^(e+1))` is rounded to
a multiple of `2^(e-23)`, with the exponent floored at `-149` for the
subnormal range. -/
def f32quantum (q : ℚ) : ℤ := max (Int.log 2 |q| - 23) (-149)

/-- Correctly-rounded conversion of a rational to the nearest binary32 value
(round-to-nearest, ties-to-even), as the exact rational it denotes.  Finite
range only: infinities and NaN are outside the model, and every value arising
in the histories evaluated here lies far below the overflow threshold. -/
def f32round (q : ℚ) : ℚ :=
  if q = 0 then 0
  else roundTiesEven (q / 2 ^ f32quantum q) * (2 : ℚ) ^ f32quantum q

/-- Binary32 addition: IEEE-754 requires the exact sum, correctly rounded. -/
def f32add (a b : ℚ) : ℚ := f32round (a + b)

/-- Binary32 subtraction: the exact difference, correctly rounded. -/
def f32sub (a b : ℚ) : ℚ := f32round (a - b)

namespace Transaction

/-- `Transaction::process_withdrawal` under the source's `f32` arithmetic:
identical to `process_withdrawal` with binary32 addition and subtraction in
place of exact rational arithmetic (comparison of finite floats coincides
with the rational order). -/
def f32process_withdrawal (self : Transaction) (state : ClientState) : ClientState :=
  match self.amount with
  | some amount =>
      if state.available ≥ amount then
        { state with available := f32sub state.available amount,
                     total := f32sub state.total amount }
      else state
  | none => state

/-- `Transaction::process_deposit` under the source's `f32` arithmetic. -/
def f32process_deposit (self : Transaction) (state : ClientState) : ClientState :=
  match self.amount with
  | some amount =>
      { state with available := f32add state.available amount,
                   total := f32add state.total amount }
  | none => state

/-- `Transaction::process_dispute` under the source's `f32` arithmetic. -/
def f32process_dispute (self : Transaction) (state : ClientState) (log : List Transaction) :
    ClientState :=
  match find_transaction log self.tx with
  | some dt =>
      match dt.amount with
      | some amount =>
          if dt.type = TransactionType.withdrawal then
            { state with available := f32add state.available amount,
                         held := f32sub state.held amount }
          else if dt.type = TransactionType.deposit then
            { state with available := f32sub state.available amount,
                         held := f32add state.held amount }
          else state
      | none => state
  | none => state

/-- `Transaction::process_resolve` under the source's `f32` arithmetic. -/
def f32process_resolve (self : Transaction) (state : ClientState) (log : List Transaction) :
    ClientState :=
  match find_transaction log self.tx with
  | some dt =>
      if (find_dispute log self.tx).isSome && (find_chargeback log self.tx).isNone then
        match dt.amount with
        | some amount =>
            if dt.type = TransactionType.withdrawal then
              { state with held := f32add state.held amount,
                           available := f32sub state.available amount }
            else if dt.type = TransactionType.deposit then
              { state with held := f32sub state.held amount,
                           available := f32add state.available amount }
            else state
        | none => state
      else state
  | none => state

/-- `Transaction::process_chargeback` under the source's `f32` arithmetic. -/
def f32process_chargeback (self : Transaction) (state : ClientState) (log : List Transaction) :
    ClientState :=
  match find_transaction log self.tx with
  | some dt =>
      if (find_dispute log self.tx).isSome && (find_resolve log self.tx).isNone then
        match dt.amount with
        | some amount =>
            let state1 :=
              if dt.type = TransactionType.withdrawal then
                { state with held := f32add state.held amount,
                             total := f32add state.total amount }
              else if dt.type = TransactionType.deposit then
                { state with held := f32sub state.held amount,
                             total := f32sub state.total amount }
              else state
            { state1 with locked := true }
        | none => state
      else state
  | none => state

/-- `Transaction::process` under the source's `f32` arithmetic. -/
def f32process (self : Transaction) (state : ClientState) (log : List Transaction) :
    ClientState :=
  match self.type with
  | TransactionType.deposit => self.f32process_deposit state
  | TransactionType.withdrawal => self.f32process_withdrawal state
  | TransactionType.dispute => self.f32process_dispute state log
  | TransactionType.resolve => self.f32process_resolve state log
  | TransactionType.chargeback => self.f32process_chargeback state log

end Transaction

/-- The per-client fold under the source's `f32` arithmetic: same shape as
`calcStateAux`, driving `Transaction.f32process`. -/
def f32calcStateAux : ClientState → List Transaction → List Transaction → ClientState
  | state, _, [] => state
  | state, log, t :: rest =>
      if state.locked then state
      else f32calcStateAux (t.f32process state log) (log ++ [t]) rest

/-- The account state after the first `n` transactions of a history, under
the source's `f32` arithmetic. -/
def f32stateAfter (id : Nat) (txs : List Transaction) (n : Nat) : ClientState :=
  f32calcStateAux (initialState id) [] (txs.take n)

/-- History on which the f32 program violates the conservation identity:
2^24 = 16777216 is the first binade of binary32 whose quantum is 2, so the
two later unit deposits are absorbed by `total` (round-to-even sends
16777217 back to 16777216) while `available` accumulates them exactly. -/
def cexC1 : List Transaction := [depT 1 16777216, dispT 1, depT 2 1, depT 3 1]


section Scenarios

example : calc_state 0 [depT 1 5, wdT 2 (7/2)] =
    { id := 0, available := 3/2, held := 0, total := 3/2, locked := false } := by
  simp +decide [calc_state, calcStateAux, Transaction.process, Transaction.process_deposit,
    Transaction.process_withdrawal, Transaction.process_dispute, Transaction.process_resolve,
    Transaction.process_chargeback, find_transaction, find_dispute, find_resolve,
    find_chargeback, List.find?, depT, wdT, dispT, resT, cbT, initialState]
  all_goals norm_num

example : calc_state 0 [depT 1 10, dispT 1] =
    { id := 0, available := 0, held := 10, total := 10, locked := false } := by
  simp +decide [calc_state, calcStateAux, Transaction.process, Transaction.process_deposit,
    Transaction.process_withdrawal, Transaction.process_dispute, Transaction.process_resolve,
    Transaction.process_chargeback, find_transaction, find_dispute, find_resolve,
    find_chargeback, List.find?, depT, wdT, dispT, resT, cbT, initialState]

example : calc_state 0 [depT 1 10, dispT 1, resT 1] =
    { id := 0, available := 10, held := 0, total := 10, locked := false } := by
  simp +decide [calc_state, calcStateAux, Transaction.process, Transaction.process_deposit,
    Transaction.process_withdrawal, Transaction.process_dispute, Transaction.process_resolve,
    Transaction.process_chargeback, find_transaction, find_dispute, find_resolve,
    find_chargeback, List.find?, depT, wdT, dispT, resT, cbT, initialState]

example : calc_state 0 [depT 1 10, dispT 1, cbT 1] =
    { id := 0, available := 0, held := 0, total := 0, locked := true } := by
  simp +decide [calc_state, calcStateAux, Transaction.process, Transaction.process_deposit,
    Transaction.process_withdrawal, Transaction.process_dispute, Transaction.process_resolve,
    Transaction.process_chargeback, find_transaction, find_dispute, find_resolve,
    find_chargeback, List.find?, depT, wdT, dispT, resT, cbT, initialState]

example : calc_state 0 [depT 1 10, wdT 2 5, dispT 2] =
    { id := 0, available := 10, held := -5, total := 5, locked := false } := by
  simp +decide [calc_state, calcStateAux, Transaction.process, Transaction.process_deposit,
    Transaction.process_withdrawal, Transaction.process_dispute, Transaction.process_resolve,
    Transaction.process_chargeback, find_transaction, find_dispute, find_resolve,
    find_chargeback, List.find?, depT, wdT, dispT, resT, cbT, initialState]
  all_goals norm_num

example : calc_state 0 [dispT 1, depT 1 15] =
    { id := 0, available := 15, held := 0, total := 15, locked := false } := by
  simp +decide [calc_state, calcStateAux, Transaction.process, Transaction.process_deposit,
    Transaction.process_withdrawal, Transaction.process_dispute, Transaction.process_resolve,
    Transaction.process_chargeback, find_transaction, find_dispute, find_resolve,
    find_chargeback, List.find?, depT, wdT, dispT, resT, cbT, initialState]

example : calc_state 0 [depT 1 10, wdT 2 5, dispT 2, cbT 2, depT 3 20, wdT 4 (3/2)] =
    { id := 0, available := 10, held := 0, total := 10, locked := true } := by
  simp +decide [calc_state, calcStateAux, Transaction.process, Transaction.process_deposit,
    Transaction.process_withdrawal, Transaction.process_dispute, Transaction.process_resolve,
    Transaction.process_chargeback, find_transaction, find_dispute, find_resolve,
    find_chargeback, List.find?, depT, wdT, dispT, resT, cbT, initialState]

end Scenarios

section FoldLemmas

/-- Once the running state is locked, the fold returns it unchanged. -/
theorem calcStateAux_of_locked (s : ClientState) (log l : List Transaction)
    (h : s.locked = true) : calcStateAux s log l = s := by
  cases l with
  | nil => rfl
  | cons t rest => simp [calcStateAux, h]

/-- Peeling the last transaction off a fold. -/
theorem calcStateAux_append_single (s : ClientState) (log l : List Transaction)
    (t : Transaction) :
    calcStateAux s log (l ++ [t]) =
      if (calcStateAux s log l).locked then calcStateAux s log l
      else t.process (calcStateAux s log l) (log ++ l) := by
  induction l generalizing s log with
  | nil => simp [calcStateAux]
  | cons h' l' ih =>
    by_cases hl : s.locked
    · simp [calcStateAux, hl, calcStateAux_of_locked _ _ _ hl]
    · simp only [List.cons_append, calcStateAux, hl, Bool.false_eq_true, if_false,
        List.append_eq]
      rw [ih]
      simp

/-- The state after zero transactions is the initial state. -/
theorem stateAfter_zero (id : Nat) (txs : List Transaction) :
    stateAfter id txs 0 = initialState id := rfl

/-- One step of the history fold: the transaction at position `n` is skipped
when the state is already locked and otherwise processed against the log of
the records strictly before it. -/
theorem stateAfter_succ (id : Nat) (txs : List Transaction) (n : Nat) (h : n < txs.length) :
    stateAfter id txs (n + 1) =
      if (stateAfter id txs n).locked then stateAfter id txs n
      else txs[n].process (stateAfter id txs n) (txs.take n) := by
  unfold stateAfter
  rw [← List.take_concat_get' txs n h, calcStateAux_append_single]
  simp

/-- Beyond the end of the history the state no longer changes. -/
theorem stateAfter_of_length_le (id : Nat) (txs : List Transaction) (n : Nat)
    (h : txs.length ≤ n) : stateAfter id txs n = stateAfter id txs txs.length := by
  unfold stateAfter
  rw [List.take_of_length_le h, List.take_length]

/-- From a locked state on, every later state of the same history is equal. -/
theorem stateAfter_locked_stable (id : Nat) (txs : List Transaction) (i j : Nat)
    (hij : i ≤ j) (h : (stateAfter id txs i).locked = true) :
    stateAfter id txs j = stateAfter id txs i := by
  induction j, hij using Nat.le_induction with
  | base => rfl
  | succ k hik ih =>
    by_cases hk : k < txs.length
    · rw [stateAfter_succ id txs k hk, ih]
      simp [h]
    · have h1 : txs.length ≤ k := Nat.le_of_not_lt hk
      rw [stateAfter_of_length_le id txs (k + 1) (Nat.le_succ_of_le h1),
          ← stateAfter_of_length_le id txs k h1, ih]

end FoldLemmas

section Conservation

/-- Every per-transaction processing step preserves `total = available + held`. -/
theorem process_conserves (t : Transaction) (s : ClientState) (log : List Transaction)
    (h : s.total = s.available + s.held) :
    (t.process s log).total = (t.process s log).available + (t.process s log).held := by
  obtain ⟨sid, av, hd, tot, lk⟩ := s
  simp only [ClientState.available, ClientState.held, ClientState.total] at h
  unfold Transaction.process Transaction.process_deposit Transaction.process_withdrawal
    Transaction.process_dispute Transaction.process_resolve Transaction.process_chargeback
  repeat' split
  all_goals simp_all
  all_goals linarith

end Conservation

/-- In exact (rational) arithmetic — the spec's signed-decimal data model —
every client history satisfies `total = available + held` after each
transaction applied by the fold: the engine's bookkeeping discipline is
conservative, and only the `f32` representation of the balances breaks the
identity (see the C1 theorem below). -/
theorem conservation_invariant (id : Nat) (txs : List Transaction) (n : Nat) :
    (stateAfter id txs n).total = (stateAfter id txs n).available + (stateAfter id txs n).held := by
  induction n with
  | zero => simp [stateAfter_zero, initialState]
  | succ k ih =>
    by_cases hk : k < txs.length
    · rw [stateAfter_succ id txs k hk]
      split
      · exact ih
      · exact process_conserves _ _ _ ih
    · rw [stateAfter_of_length_le id txs (k + 1) (Nat.le_succ_of_le (Nat.le_of_not_lt hk)),
          ← stateAfter_of_length_le id txs k (Nat.le_of_not_lt hk)]
      exact ih

section BinaryRounding

/-- Rounding an integer-valued rational to the nearest integer is exact. -/
theorem roundTiesEven_intCast (n : ℤ) : roundTiesEven (n : ℚ) = n := by
  simp [roundTiesEven]

/-- A half-integer tie rounds to the even neighbour. -/
theorem roundTiesEven_intCast_add_half_even (n : ℤ) (h : n % 2 = 0) :
    roundTiesEven ((n : ℚ) + 1/2) = n := by
  have hf : ⌊(n : ℚ) + 1/2⌋ = n := by
    rw [add_comm, Int.floor_add_int]
    norm_num
  simp only [roundTiesEven, hf]
  norm_num [h]

/-- `Int.log 2` is characterised by the enclosing binade. -/
theorem int_log_two_eq {q : ℚ} {e : ℤ} (h0 : 0 < q) (h1 : (2 : ℚ) ^ e ≤ q)
    (h2 : q < (2 : ℚ) ^ (e + 1)) : Int.log 2 q = e := by
  have hb : (1 : ℕ) < 2 := by norm_num
  have hA : e ≤ Int.log 2 q := by
    rw [← Int.zpow_le_iff_le_log hb h0]
    push_cast
    exact h1
  have hB : Int.log 2 q < e + 1 := by
    rw [← Int.lt_zpow_iff_log_lt hb h0]
    push_cast
    exact h2
  omega

/-- The binary32 quantum of a positive value in a normal-range binade. -/
theorem f32quantum_eq {q : ℚ} {e : ℤ} (h0 : 0 < q) (h1 : (2 : ℚ) ^ e ≤ q)
    (h2 : q < (2 : ℚ) ^ (e + 1)) (he : -126 ≤ e) : f32quantum q = e - 23 := by
  unfold f32quantum
  rw [abs_of_pos h0, int_log_two_eq h0 h1 h2]
  omega

/-- 2^24 + 1 is the first integer binary32 cannot represent: the tie rounds
down to the even significand, i.e. back to 2^24. -/
theorem f32round_16777217 : f32round 16777217 = 16777216 := by
  have hq : f32quantum 16777217 = 1 := by
    have h := f32quantum_eq (q := 16777217) (e := 24) (by norm_num)
      (by norm_num) (by norm_num) (by norm_num)
    omega
  unfold f32round
  rw [if_neg (by norm_num), hq]
  have h1 : (16777217 : ℚ) / 2 ^ (1 : ℤ) = (8388608 : ℤ) + 1/2 := by norm_num
  rw [h1, roundTiesEven_intCast_add_half_even 8388608 (by norm_num)]
  norm_num

/-- 2^24 + 2 is representable (even multiple of the quantum 2). -/
theorem f32round_16777218 : f32round 16777218 = 16777218 := by
  have hq : f32quantum 16777218 = 1 := by
    have h := f32quantum_eq (q := 16777218) (e := 24) (by norm_num)
      (by norm_num) (by norm_num) (by norm_num)
    omega
  unfold f32round
  rw [if_neg (by norm_num), hq]
  have h1 : (16777218 : ℚ) / 2 ^ (1 : ℤ) = ((8388609 : ℤ) : ℚ) := by norm_num
  rw [h1, roundTiesEven_intCast]
  norm_num

/-- 2^24 itself is representable. -/
theorem f32round_16777216 : f32round 16777216 = 16777216 := by
  have hq : f32quantum 16777216 = 1 := by
    have h := f32quantum_eq (q := 16777216) (e := 24) (by norm_num)
      (by norm_num) (by norm_num) (by norm_num)
    omega
  unfold f32round
  rw [if_neg (by norm_num), hq]
  have h1 : (16777216 : ℚ) / 2 ^ (1 : ℤ) = ((8388608 : ℤ) : ℚ) := by norm_num
  rw [h1, roundTiesEven_intCast]
  norm_num

/-- 1 is representable. -/
theorem f32round_one : f32round 1 = 1 := by
  have hq : f32quantum 1 = -23 := by
    have h := f32quantum_eq (q := 1) (e := 0) (by norm_num) (by norm_num) (by norm_num)
      (by norm_num)
    omega
  unfold f32round
  rw [if_neg (by norm_num), hq]
  have h1 : (1 : ℚ) / 2 ^ (-23 : ℤ) = ((8388608 : ℤ) : ℚ) := by
    rw [zpow_neg]
    norm_num
  rw [h1, roundTiesEven_intCast]
  rw [zpow_neg]
  norm_num

/-- 2 is representable. -/
theorem f32round_two : f32round 2 = 2 := by
  have hq : f32quantum 2 = -22 := by
    have h := f32quantum_eq (q := 2) (e := 1) (by norm_num) (by norm_num) (by norm_num)
      (by norm_num)
    omega
  unfold f32round
  rw [if_neg (by norm_num), hq]
  have h1 : (2 : ℚ) / 2 ^ (-22 : ℤ) = ((8388608 : ℤ) : ℚ) := by
    rw [zpow_neg]
    norm_num
  rw [h1, roundTiesEven_intCast]
  rw [zpow_neg]
  norm_num

/-- 0 is representable. -/
theorem f32round_zero : f32round 0 = 0 := by
  simp [f32round]

/-- The `f32` fold evaluated on `cexC1`: `total` absorbs the two unit
deposits (each `16777216 + 1` rounds back to `16777216`) while `available`
accumulates them exactly. -/
theorem cexC1_final :
    f32stateAfter 0 cexC1 4 = ⟨0, 2, 16777216, 16777216, false⟩ := by
  simp +decide [f32stateAfter, f32calcStateAux, Transaction.f32process,
    Transaction.f32process_deposit, Transaction.f32process_withdrawal,
    Transaction.f32process_dispute, Transaction.f32process_resolve,
    Transaction.f32process_chargeback, find_transaction, find_dispute, find_resolve,
    find_chargeback, List.find?, List.take, cexC1, depT, wdT, dispT, resT, cbT, initialState,
    f32add, f32sub, f32round_16777216, f32round_16777217, f32round_zero, f32round_one,
    f32round_two]
  norm_num [f32round_16777216, f32round_16777217, f32round_two]

end BinaryRounding

/-- C1 (code bug): in the program's `f32` arithmetic the conservation
invariant `total = available + held` fails on the history
`[Deposit(tx1, 16777216), Dispute(tx1), Deposit(tx2, 1), Deposit(tx3, 1)]`:
after the fourth applied transaction `available = 2` and
`held = total = 16777216`, so `total` differs from `available + held` both as
an exact sum and as the `f32` sum (16777218).  The spec's exact-decimal data
model — under which `conservation_invariant` above proves the identity — is
the intent, and the `f32` representation of the balances is the defect. -/
theorem conservation_fails_in_f32 :
    (f32stateAfter 0 cexC1 4).available = 2 ∧
    (f32stateAfter 0 cexC1 4).held = 16777216 ∧
    (f32stateAfter 0 cexC1 4).total = 16777216 ∧
    f32add (f32stateAfter 0 cexC1 4).available (f32stateAfter 0 cexC1 4).held = 16777218 ∧
    (f32stateAfter 0 cexC1 4).total ≠
      (f32stateAfter 0 cexC1 4).available + (f32stateAfter 0 cexC1 4).held := by
  rw [cexC1_final]
  refine ⟨rfl, rfl, rfl, ?_, by norm_num⟩
  norm_num [f32add, f32round_16777218]

section StepLemmas

/-- A Dispute, Resolve or Chargeback whose referenced id is not found as a
Deposit/Withdrawal in the log is a no-op for the state. -/
theorem process_cross_notfound (t : Transaction) (s : ClientState) (log : List Transaction)
    (ht : t.type = TransactionType.dispute ∨ t.type = TransactionType.resolve ∨
      t.type = TransactionType.chargeback)
    (h : find_transaction log t.tx = none) : t.process s log = s := by
  rcases ht with ht | ht | ht <;>
    simp [Transaction.process, ht, Transaction.process_dispute, Transaction.process_resolve,
      Transaction.process_chargeback, h]

/-- A Resolve is a no-op when the log holds no Dispute record on the id, or
holds a Chargeback record on it. -/
theorem process_resolve_noop (t : Transaction) (s : ClientState) (log : List Transaction)
    (ht : t.type = TransactionType.resolve)
    (h : find_dispute log t.tx = none ∨ find_chargeback log t.tx ≠ none) :
    t.process s log = s := by
  simp only [Transaction.process, ht]
  rcases hdt : find_transaction log t.tx with _ | dt <;>
    rcases h with h | h
  · simp [Transaction.process_resolve, hdt]
  · simp [Transaction.process_resolve, hdt]
  · simp [Transaction.process_resolve, hdt, h]
  · obtain ⟨c, hc⟩ := Option.ne_none_iff_exists'.mp h
    simp [Transaction.process_resolve, hdt, hc]

/-- A Chargeback is a no-op when the log holds no Dispute record on the id, or
holds a Resolve record on it. -/
theorem process_chargeback_noop (t : Transaction) (s : ClientState) (log : List Transaction)
    (ht : t.type = TransactionType.chargeback)
    (h : find_dispute log t.tx = none ∨ find_resolve log t.tx ≠ none) :
    t.process s log = s := by
  simp only [Transaction.process, ht]
  rcases hdt : find_transaction log t.tx with _ | dt <;>
    rcases h with h | h
  · simp [Transaction.process_chargeback, hdt]
  · simp [Transaction.process_chargeback, hdt]
  · simp [Transaction.process_chargeback, hdt, h]
  · obtain ⟨c, hc⟩ := Option.ne_none_iff_exists'.mp h
    simp [Transaction.process_chargeback, hdt, hc]

/-- The effect of a Dispute whose referenced transaction is found with an
amount: the per-kind move between `available` and `held`. -/
theorem process_dispute_effect (t dt : Transaction) (s : ClientState) (log : List Transaction)
    (a : ℚ) (ht : t.type = TransactionType.dispute)
    (hdt : find_transaction log t.tx = some dt) (ha : dt.amount = some a) :
    t.process s log =
      if dt.type = TransactionType.withdrawal then
        { s with available := s.available + a, held := s.held - a }
      else if dt.type = TransactionType.deposit then
        { s with available := s.available - a, held := s.held + a }
      else s := by
  simp [Transaction.process, ht, Transaction.process_dispute, hdt, ha]

/-- The effect of a Resolve whose referenced transaction is found with an
amount, with a Dispute record and no Chargeback record on the id in the log:
the per-kind move between `held` and `available`. -/
theorem process_resolve_effect (t dt : Transaction) (s : ClientState) (log : List Transaction)
    (a : ℚ) (ht : t.type = TransactionType.resolve)
    (hdt : find_transaction log t.tx = some dt) (ha : dt.amount = some a)
    (hpd : (find_dispute log t.tx).isSome = true)
    (hpc : find_chargeback log t.tx = none) :
    t.process s log =
      if dt.type = TransactionType.withdrawal then
        { s with held := s.held + a, available := s.available - a }
      else if dt.type = TransactionType.deposit then
        { s with held := s.held - a, available := s.available + a }
      else s := by
  simp [Transaction.process, ht, Transaction.process_resolve, hdt, ha, hpd, hpc]

/-- The effect of a Chargeback whose referenced transaction is found with an
amount, with a Dispute record and no Resolve record on the id in the log: the
per-kind move between `held` and `total`, and the lock. -/
theorem process_chargeback_effect (t dt : Transaction) (s : ClientState) (log : List Transaction)
    (a : ℚ) (ht : t.type = TransactionType.chargeback)
    (hdt : find_transaction log t.tx = some dt) (ha : dt.amount = some a)
    (hpd : (find_dispute log t.tx).isSome = true)
    (hpr : find_resolve log t.tx = none) :
    t.process s log =
      { (if dt.type = TransactionType.withdrawal then
          { s with held := s.held + a, total := s.total + a }
        else if dt.type = TransactionType.deposit then
          { s with held := s.held - a, total := s.total - a }
        else s) with locked := true } := by
  simp [Transaction.process, ht, Transaction.process_chargeback, hdt, ha, hpd, hpr]

end StepLemmas

/-- C2: once the state's locked flag is true, every subsequent transaction in
the history is skipped: no later record changes `available`, `held` or
`total`, and the state at any later point equals the state at the point the
lock was observed. -/
theorem locked_skips_rest (id : Nat) (txs : List Transaction) (i j : Nat) (hij : i ≤ j)
    (h : (stateAfter id txs i).locked = true) :
    stateAfter id txs j = stateAfter id txs i :=
  stateAfter_locked_stable id txs i j hij h

/-- Concrete history for the C2 witness: a chargeback locks the account after
three records and the final deposit is skipped. -/
def histC2 : List Transaction := [depT 1 10, dispT 1, cbT 1, depT 2 20]

/-- Witness for C2: after the chargeback (three records) the account of
`histC2` is locked, and the fourth record leaves the state unchanged. -/
theorem locked_skips_rest_witness :
    (stateAfter 0 histC2 3).locked = true ∧ stateAfter 0 histC2 4 = stateAfter 0 histC2 3 := by
  constructor
  · simp +decide [stateAfter, calcStateAux, Transaction.process, Transaction.process_deposit,
      Transaction.process_withdrawal, Transaction.process_dispute, Transaction.process_resolve,
      Transaction.process_chargeback, find_transaction, find_dispute, find_resolve,
      find_chargeback, List.find?, List.take, histC2, depT, wdT, dispT, resT, cbT, initialState]
  · exact locked_skips_rest 0 histC2 3 4 (by norm_num)
      (by simp +decide [stateAfter, calcStateAux, Transaction.process,
        Transaction.process_deposit, Transaction.process_withdrawal,
        Transaction.process_dispute, Transaction.process_resolve,
        Transaction.process_chargeback, find_transaction, find_dispute, find_resolve,
        find_chargeback, List.find?, List.take, histC2, depT, wdT, dispT, resT, cbT,
        initialState])

/-- C3: a Dispute, Resolve or Chargeback whose referenced transaction id does
not appear as a Deposit or Withdrawal strictly earlier in the history leaves
the state unchanged, even when a Deposit/Withdrawal with that id appears later
in the history. -/
theorem forward_reference_noop (id : Nat) (txs : List Transaction) (i : Nat)
    (h : i < txs.length)
    (ht : txs[i].type = TransactionType.dispute ∨ txs[i].type = TransactionType.resolve ∨
      txs[i].type = TransactionType.chargeback)
    (hnone : find_transaction (txs.take i) txs[i].tx = none) :
    stateAfter id txs (i + 1) = stateAfter id txs i := by
  rw [stateAfter_succ id txs i h]
  split
  · rfl
  · exact process_cross_notfound _ _ _ ht hnone

/-- Concrete history for the C3 witness: the dispute precedes its target. -/
def histC3 : List Transaction := [dispT 1, depT 1 15]

/-- Witness for C3: in `histC3` the leading dispute references a transaction
that only appears later, and is a no-op. -/
theorem forward_reference_noop_witness :
    (histC3[0].type = TransactionType.dispute ∨ histC3[0].type = TransactionType.resolve ∨
      histC3[0].type = TransactionType.chargeback) ∧
    find_transaction (histC3.take 0) histC3[0].tx = none ∧
    stateAfter 0 histC3 1 = stateAfter 0 histC3 0 := by
  refine ⟨Or.inl (by simp [histC3, dispT]), by simp [find_transaction, histC3], ?_⟩
  exact forward_reference_noop 0 histC3 0 (by simp [histC3]) (Or.inl (by simp [histC3, dispT]))
    (by simp [find_transaction, histC3])

/-- Concrete history refuting C4 as stated: the stale Chargeback record at
position 1 was a no-op (no dispute was open), so after
`[Deposit, Chargeback, Dispute]` the dispute status of id 1 is `Disputed`,
yet the Resolve at position 3 is a no-op because `process_resolve` only
checks for the existence of a Chargeback record in the log. -/
def cexC4 : List Transaction := [depT 1 10, cbT 1, dispT 1, resT 1]

/-- Counterexample to C4: in `cexC4` the referenced transaction exists
earlier, its dispute status is `Disputed`, and the original is a Deposit of
amount 10 — but applying the Resolve leaves the state unchanged instead of
decreasing `held` by the amount. -/
theorem resolve_on_disputed_status_fails :
    specDisputeStatus (cexC4.take 3) 1 = DisputeStatus.disputed ∧
    find_transaction (cexC4.take 3) 1 = some (depT 1 10) ∧
    stateAfter 0 cexC4 4 = stateAfter 0 cexC4 3 ∧
    (stateAfter 0 cexC4 4).held ≠ (stateAfter 0 cexC4 3).held - 10 := by
  refine ⟨?_, ?_, ?_, ?_⟩ <;>
    simp +decide [stateAfter, calcStateAux, Transaction.process, Transaction.process_deposit,
      Transaction.process_withdrawal, Transaction.process_dispute, Transaction.process_resolve,
      Transaction.process_chargeback, find_transaction, find_dispute, find_resolve,
      find_chargeback, List.find?, List.take, cexC4, depT, wdT, dispT, resT, cbT, initialState,
      specDisputeStatus, specStatusStep, List.foldl]

/-- C4 (amended): applying a Resolve whose referenced transaction id exists
earlier as a Deposit/Withdrawal with an amount, with some Dispute record on
that id earlier and no Chargeback record on it earlier (the code's gate, in
place of the claim's current-status gate), on an unlocked state, reverses the
Dispute effect per kind of the original: Deposit original decreases `held` and
increases `available` by the amount; Withdrawal original increases `held` and
decreases `available`; `total` is unchanged. -/
theorem resolve_applied_effect (id : Nat) (txs : List Transaction) (i : Nat) (t : Transaction)
    (a : ℚ) (h : i < txs.length)
    (ht : txs[i].type = TransactionType.resolve)
    (hlock : (stateAfter id txs i).locked = false)
    (hdt : find_transaction (txs.take i) txs[i].tx = some t)
    (ha : t.amount = some a)
    (hpd : (find_dispute (txs.take i) txs[i].tx).isSome = true)
    (hpc : find_chargeback (txs.take i) txs[i].tx = none) :
    (t.type = TransactionType.deposit →
      stateAfter id txs (i + 1) =
        { stateAfter id txs i with
            held := (stateAfter id txs i).held - a,
            available := (stateAfter id txs i).available + a }) ∧
    (t.type = TransactionType.withdrawal →
      stateAfter id txs (i + 1) =
        { stateAfter id txs i with
            held := (stateAfter id txs i).held + a,
            available := (stateAfter id txs i).available - a }) := by
  rw [stateAfter_succ id txs i h, if_neg (by simp [hlock]),
      process_resolve_effect _ t _ _ a ht hdt ha hpd hpc]
  constructor <;> intro hk <;> simp [hk]

/-- Concrete history for the C4 witness: deposit, dispute, resolve. -/
def histC4 : List Transaction := [depT 1 10, dispT 1, resT 1]

/-- Witness for C4 (amended) on `histC4`: the resolve restores the disputed
deposit of 10. -/
theorem resolve_applied_effect_witness :
    find_transaction (histC4.take 2) histC4[2].tx = some (depT 1 10) ∧
    ((depT 1 10).type = TransactionType.deposit →
      stateAfter 0 histC4 3 =
        { stateAfter 0 histC4 2 with
            held := (stateAfter 0 histC4 2).held - 10,
            available := (stateAfter 0 histC4 2).available + 10 }) ∧
    ((depT 1 10).type = TransactionType.withdrawal →
      stateAfter 0 histC4 3 =
        { stateAfter 0 histC4 2 with
            held := (stateAfter 0 histC4 2).held + 10,
            available := (stateAfter 0 histC4 2).available - 10 }) := by
  refine ⟨by simp +decide [find_transaction, List.find?, List.take, histC4, depT, dispT], ?_, ?_⟩
  · exact (resolve_applied_effect 0 histC4 2 (depT 1 10) 10 (by norm_num [histC4])
      (by simp +decide [histC4, resT])
      (by simp +decide [stateAfter, calcStateAux, Transaction.process,
        Transaction.process_deposit, Transaction.process_withdrawal,
        Transaction.process_dispute, Transaction.process_resolve,
        Transaction.process_chargeback, find_transaction, find_dispute, find_resolve,
        find_chargeback, List.find?, List.take, histC4, depT, wdT, dispT, resT, cbT,
        initialState])
      (by simp +decide [find_transaction, List.find?, List.take, histC4, depT, dispT])
      (by simp +decide [depT])
      (by simp +decide [find_dispute, List.find?, List.take, histC4, depT, dispT])
      (by simp +decide [find_chargeback, List.find?, List.take, histC4, depT, dispT])).1
  · exact (resolve_applied_effect 0 histC4 2 (depT 1 10) 10 (by norm_num [histC4])
      (by simp +decide [histC4, resT])
      (by simp +decide [stateAfter, calcStateAux, Transaction.process,
        Transaction.process_deposit, Transaction.process_withdrawal,
        Transaction.process_dispute, Transaction.process_resolve,
        Transaction.process_chargeback, find_transaction, find_dispute, find_resolve,
        find_chargeback, List.find?, List.take, histC4, depT, wdT, dispT, resT, cbT,
        initialState])
      (by simp +decide [find_transaction, List.find?, List.take, histC4, depT, dispT])
      (by simp +decide [depT])
      (by simp +decide [find_dispute, List.find?, List.take, histC4, depT, dispT])
      (by simp +decide [find_chargeback, List.find?, List.take, histC4, depT, dispT])).2

/-- Concrete history refuting C5 as stated: the stale Resolve record at
position 1 was a no-op (no dispute was open), so after
`[Deposit, Resolve, Dispute]` the dispute status of id 1 is `Disputed`, yet
the Chargeback at position 3 is a no-op because `process_chargeback` only
checks for the existence of a Resolve record in the log. -/
def cexC5 : List Transaction := [depT 1 10, resT 1, dispT 1, cbT 1]

/-- Counterexample to C5: in `cexC5` the referenced transaction exists
earlier and its dispute status is `Disputed`, but applying the Chargeback
leaves the state unchanged and in particular does not lock the account. -/
theorem chargeback_on_disputed_status_fails :
    specDisputeStatus (cexC5.take 3) 1 = DisputeStatus.disputed ∧
    find_transaction (cexC5.take 3) 1 = some (depT 1 10) ∧
    stateAfter 0 cexC5 4 = stateAfter 0 cexC5 3 ∧
    (stateAfter 0 cexC5 4).locked = false := by
  refine ⟨?_, ?_, ?_, ?_⟩ <;>
    simp +decide [stateAfter, calcStateAux, Transaction.process, Transaction.process_deposit,
      Transaction.process_withdrawal, Transaction.process_dispute, Transaction.process_resolve,
      Transaction.process_chargeback, find_transaction, find_dispute, find_resolve,
      find_chargeback, List.find?, List.take, cexC5, depT, wdT, dispT, resT, cbT, initialState,
      specDisputeStatus, specStatusStep, List.foldl]

/-- C5 (amended): applying a Chargeback whose referenced transaction id
exists earlier as a Deposit/Withdrawal with an amount, with some Dispute
record on that id earlier and no Resolve record on it earlier (the code's
gate, in place of the claim's current-status gate), on an unlocked state,
decreases `held` and `total` by the amount for a Deposit original, increases
them for a Withdrawal original, and sets `locked`; from that point on no
later transaction of the history changes the state. -/
theorem chargeback_applied_effect (id : Nat) (txs : List Transaction) (i j : Nat)
    (t : Transaction) (a : ℚ) (h : i < txs.length) (hj : i + 1 ≤ j)
    (ht : txs[i].type = TransactionType.chargeback)
    (hlock : (stateAfter id txs i).locked = false)
    (hdt : find_transaction (txs.take i) txs[i].tx = some t)
    (ha : t.amount = some a)
    (hpd : (find_dispute (txs.take i) txs[i].tx).isSome = true)
    (hpr : find_resolve (txs.take i) txs[i].tx = none) :
    (t.type = TransactionType.deposit →
      stateAfter id txs (i + 1) =
        { stateAfter id txs i with
            held := (stateAfter id txs i).held - a,
            total := (stateAfter id txs i).total - a,
            locked := true }) ∧
    (t.type = TransactionType.withdrawal →
      stateAfter id txs (i + 1) =
        { stateAfter id txs i with
            held := (stateAfter id txs i).held + a,
            total := (stateAfter id txs i).total + a,
            locked := true }) ∧
    stateAfter id txs j = stateAfter id txs (i + 1) := by
  have hstep : stateAfter id txs (i + 1) =
      { (if t.type = TransactionType.withdrawal then
          { stateAfter id txs i with
              held := (stateAfter id txs i).held + a,
              total := (stateAfter id txs i).total + a }
        else if t.type = TransactionType.deposit then
          { stateAfter id txs i with
              held := (stateAfter id txs i).held - a,
              total := (stateAfter id txs i).total - a }
        else stateAfter id txs i) with locked := true } := by
    rw [stateAfter_succ id txs i h, if_neg (by simp [hlock]),
        process_chargeback_effect _ t _ _ a ht hdt ha hpd hpr]
  have hlocked : (stateAfter id txs (i + 1)).locked = true := by
    rw [hstep]
  refine ⟨?_, ?_, stateAfter_locked_stable id txs (i + 1) j hj hlocked⟩
  · intro hk
    rw [hstep]
    simp [hk]
  · intro hk
    rw [hstep]
    simp [hk]

/-- Concrete history for the C5 witness: deposit, dispute, chargeback. -/
def histC5 : List Transaction := [depT 1 10, dispT 1, cbT 1]

/-- Witness for C5 (amended) on `histC5`: the chargeback removes the disputed
deposit of 10 from `held` and `total`, locks the account, and the history's
state never changes afterwards. -/
theorem chargeback_applied_effect_witness :
    ((depT 1 10).type = TransactionType.deposit →
      stateAfter 0 histC5 3 =
        { stateAfter 0 histC5 2 with
            held := (stateAfter 0 histC5 2).held - 10,
            total := (stateAfter 0 histC5 2).total - 10,
            locked := true }) ∧
    ((depT 1 10).type = TransactionType.withdrawal →
      stateAfter 0 histC5 3 =
        { stateAfter 0 histC5 2 with
            held := (stateAfter 0 histC5 2).held + 10,
            total := (stateAfter 0 histC5 2).total + 10,
            locked := true }) ∧
    stateAfter 0 histC5 5 = stateAfter 0 histC5 3 :=
  chargeback_applied_effect 0 histC5 2 5 (depT 1 10) 10 (by norm_num [histC5])
    (by norm_num)
    (by simp +decide [histC5, cbT])
    (by simp +decide [stateAfter, calcStateAux, Transaction.process,
      Transaction.process_deposit, Transaction.process_withdrawal,
      Transaction.process_dispute, Transaction.process_resolve,
      Transaction.process_chargeback, find_transaction, find_dispute, find_resolve,
      find_chargeback, List.find?, List.take, histC5, depT, wdT, dispT, resT, cbT,
      initialState])
    (by simp +decide [find_transaction, List.find?, List.take, histC5, depT, dispT])
    (by simp +decide [depT])
    (by simp +decide [find_dispute, List.find?, List.take, histC5, depT, dispT])
    (by simp +decide [find_resolve, List.find?, List.take, histC5, depT, dispT])

/-- Concrete history refuting C6 as stated: after
`[Deposit, Dispute, Resolve]` the most recent Dispute on id 1 is already
closed by the Resolve, so a second Resolve references an id with no open
dispute — yet it is applied again, because `process_resolve` only checks for
the existence of a Dispute record and the absence of a Chargeback record. -/
def cexC6 : List Transaction := [depT 1 10, dispT 1, resT 1, resT 1]

/-- Counterexample to C6: in `cexC6` the dispute status of id 1 is `Resolved`
before the final Resolve, but that Resolve changes the state instead of being
a no-op. -/
theorem resolve_after_resolve_not_noop :
    specDisputeStatus (cexC6.take 3) 1 = DisputeStatus.resolved ∧
    stateAfter 0 cexC6 4 ≠ stateAfter 0 cexC6 3 := by
  constructor <;>
    simp +decide [stateAfter, calcStateAux, Transaction.process, Transaction.process_deposit,
      Transaction.process_withdrawal, Transaction.process_dispute, Transaction.process_resolve,
      Transaction.process_chargeback, find_transaction, find_dispute, find_resolve,
      find_chargeback, List.find?, List.take, cexC6, depT, wdT, dispT, resT, cbT, initialState,
      specDisputeStatus, specStatusStep, List.foldl]

/-- C6 (amended): a Resolve or Chargeback referencing a transaction id with
no Dispute record earlier in the history is a no-op — in particular a Resolve
that precedes the Dispute of the same id is a no-op — and likewise a Resolve
with a Chargeback record earlier on the id, and a Chargeback with a Resolve
record earlier on the id, are no-ops.  (The claim's stronger reading fails: a
Resolve whose most recent Dispute was already closed by an earlier Resolve is
applied again, as the code checks records, not the current status.) -/
theorem resolve_chargeback_missing_dispute_noop (id : Nat) (txs : List Transaction) (i : Nat)
    (h : i < txs.length)
    (hc : (txs[i].type = TransactionType.resolve ∧
            (find_dispute (txs.take i) txs[i].tx = none ∨
              find_chargeback (txs.take i) txs[i].tx ≠ none)) ∨
          (txs[i].type = TransactionType.chargeback ∧
            (find_dispute (txs.take i) txs[i].tx = none ∨
              find_resolve (txs.take i) txs[i].tx ≠ none))) :
    stateAfter id txs (i + 1) = stateAfter id txs i := by
  rw [stateAfter_succ id txs i h]
  split
  · rfl
  · rcases hc with ⟨ht, hg⟩ | ⟨ht, hg⟩
    · exact process_resolve_noop _ _ _ ht hg
    · exact process_chargeback_noop _ _ _ ht hg

/-- Concrete history for the C6 witness: a Resolve that precedes any Dispute
of its id. -/
def histC6 : List Transaction := [depT 1 10, resT 1]

/-- Witness for C6 (amended) on `histC6`: the Resolve at position 1 finds no
Dispute record before it and is a no-op. -/
theorem resolve_chargeback_missing_dispute_noop_witness :
    (histC6[1].type = TransactionType.resolve ∧
      find_dispute (histC6.take 1) histC6[1].tx = none) ∧
    stateAfter 0 histC6 2 = stateAfter 0 histC6 1 := by
  refine ⟨⟨by simp +decide [histC6, resT],
    by simp +decide [find_dispute, List.find?, List.take, histC6, depT, resT]⟩, ?_⟩
  exact resolve_chargeback_missing_dispute_noop 0 histC6 1 (by norm_num [histC6])
    (Or.inl ⟨by simp +decide [histC6, resT],
      Or.inl (by simp +decide [find_dispute, List.find?, List.take, histC6, depT, resT])⟩)

/-- Concrete history refuting C7 as stated: after `[Deposit, Dispute]` the
dispute status of id 1 is `Disputed` (not `None`), yet a second Dispute on
the same id is applied again, because `process_dispute` performs no status
check at all. -/
def cexC7 : List Transaction := [depT 1 10, dispT 1, dispT 1]

/-- Counterexample to C7: in `cexC7` the second Dispute references an id
whose status is already `Disputed`, but it changes the state instead of being
a no-op. -/
theorem second_dispute_not_noop :
    specDisputeStatus (cexC7.take 2) 1 = DisputeStatus.disputed ∧
    stateAfter 0 cexC7 3 ≠ stateAfter 0 cexC7 2 := by
  constructor <;>
    simp +decide [stateAfter, calcStateAux, Transaction.process, Transaction.process_deposit,
      Transaction.process_withdrawal, Transaction.process_dispute, Transaction.process_resolve,
      Transaction.process_chargeback, find_transaction, find_dispute, find_resolve,
      find_chargeback, List.find?, List.take, cexC7, depT, wdT, dispT, resT, cbT, initialState,
      specDisputeStatus, specStatusStep, List.foldl]

/-- C7 (amended): a Dispute whose referenced id exists earlier as a
Deposit/Withdrawal with an amount is applied on every unlocked state,
regardless of the id's current dispute status (the claim's `None`-status gate
does not exist in the code): a Deposit original moves the amount from
`available` to `held`, a Withdrawal original moves it from `held` to
`available`.  In particular a second Dispute while an earlier one is still
open is applied again, not ignored. -/
theorem dispute_applied_effect (id : Nat) (txs : List Transaction) (i : Nat) (t : Transaction)
    (a : ℚ) (h : i < txs.length)
    (ht : txs[i].type = TransactionType.dispute)
    (hlock : (stateAfter id txs i).locked = false)
    (hdt : find_transaction (txs.take i) txs[i].tx = some t)
    (ha : t.amount = some a) :
    (t.type = TransactionType.deposit →
      stateAfter id txs (i + 1) =
        { stateAfter id txs i with
            available := (stateAfter id txs i).available - a,
            held := (stateAfter id txs i).held + a }) ∧
    (t.type = TransactionType.withdrawal →
      stateAfter id txs (i + 1) =
        { stateAfter id txs i with
            available := (stateAfter id txs i).available + a,
            held := (stateAfter id txs i).held - a }) := by
  rw [stateAfter_succ id txs i h, if_neg (by simp [hlock]),
      process_dispute_effect _ t _ _ a ht hdt ha]
  constructor <;> intro hk <;> simp [hk]

/-- Concrete history for the C7 witness: deposit then dispute. -/
def histC7 : List Transaction := [depT 1 10, dispT 1]

/-- Witness for C7 (amended) on `histC7`: the dispute moves the deposited 10
from `available` to `held`. -/
theorem dispute_applied_effect_witness :
    find_transaction (histC7.take 1) histC7[1].tx = some (depT 1 10) ∧
    ((depT 1 10).type = TransactionType.deposit →
      stateAfter 0 histC7 2 =
        { stateAfter 0 histC7 1 with
            available := (stateAfter 0 histC7 1).available - 10,
            held := (stateAfter 0 histC7 1).held + 10 }) ∧
    ((depT 1 10).type = TransactionType.withdrawal →
      stateAfter 0 histC7 2 =
        { stateAfter 0 histC7 1 with
            available := (stateAfter 0 histC7 1).available + 10,
            held := (stateAfter 0 histC7 1).held - 10 }) := by
  refine ⟨by simp +decide [find_transaction, List.find?, List.take, histC7, depT], ?_, ?_⟩
  · exact (dispute_applied_effect 0 histC7 1 (depT 1 10) 10 (by norm_num [histC7])
      (by simp +decide [histC7, dispT])
      (by simp +decide [stateAfter, calcStateAux, Transaction.process,
        Transaction.process_deposit, Transaction.process_withdrawal,
        Transaction.process_dispute, Transaction.process_resolve,
        Transaction.process_chargeback, find_transaction, find_dispute, find_resolve,
        find_chargeback, List.find?, List.take, histC7, depT, wdT, dispT, resT, cbT,
        initialState])
      (by simp +decide [find_transaction, List.find?, List.take, histC7, depT])
      (by simp +decide [depT])).1
  · exact (dispute_applied_effect 0 histC7 1 (depT 1 10) 10 (by norm_num [histC7])
      (by simp +decide [histC7, dispT])
      (by simp +decide [stateAfter, calcStateAux, Transaction.process,
        Transaction.process_deposit, Transaction.process_withdrawal,
        Transaction.process_dispute, Transaction.process_resolve,
        Transaction.process_chargeback, find_transaction, find_dispute, find_resolve,
        find_chargeback, List.find?, List.take, histC7, depT, wdT, dispT, resT, cbT,
        initialState])
      (by simp +decide [find_transaction, List.find?, List.take, histC7, depT])
      (by simp +decide [depT])).2

/-- Concrete history for C8: deposit, dispute, resolve, a reopening dispute,
then a chargeback on the reopened dispute. -/
def cexC8 : List Transaction := [depT 1 10, dispT 1, resT 1, dispT 1, cbT 1]

/-- Counterexample to C8: in `cexC8` the reopening Dispute at position 3 is
applied (as the claim says), but the following Chargeback is a no-op — the
Resolve record at position 2 permanently blocks chargebacks on id 1 — so the
account is not locked, contradicting the claim. -/
theorem chargeback_after_reopened_dispute_fails :
    stateAfter 0 cexC8 4 =
      { stateAfter 0 cexC8 3 with
          available := (stateAfter 0 cexC8 3).available - 10,
          held := (stateAfter 0 cexC8 3).held + 10 } ∧
    stateAfter 0 cexC8 5 = stateAfter 0 cexC8 4 ∧
    (stateAfter 0 cexC8 5).locked = false := by
  refine ⟨?_, ?_, ?_⟩ <;>
    simp +decide [stateAfter, calcStateAux, Transaction.process, Transaction.process_deposit,
      Transaction.process_withdrawal, Transaction.process_dispute, Transaction.process_resolve,
      Transaction.process_chargeback, find_transaction, find_dispute, find_resolve,
      find_chargeback, List.find?, List.take, cexC8, depT, wdT, dispT, resT, cbT, initialState]

/-- C8 (amended): after `[..., Deposit/Withdrawal(tx), Dispute(tx),
Resolve(tx), ...]` a later Dispute on the same id is applied again with the
same per-kind effect as the first — but a Chargeback following the reopened
Dispute is a no-op, because the earlier Resolve record on that id blocks
every later Chargeback on it; the account is not locked. -/
theorem reopened_dispute_chargeback_blocked (id : Nat) (txs : List Transaction) (i j : Nat)
    (t : Transaction) (a : ℚ) (hi : i < txs.length)
    (hti : txs[i].type = TransactionType.dispute)
    (hlock : (stateAfter id txs i).locked = false)
    (hdt : find_transaction (txs.take i) txs[i].tx = some t)
    (ha : t.amount = some a)
    (hj : j < txs.length)
    (htj : txs[j].type = TransactionType.chargeback)
    (hpr : find_resolve (txs.take j) txs[j].tx ≠ none) :
    ((t.type = TransactionType.deposit →
      stateAfter id txs (i + 1) =
        { stateAfter id txs i with
            available := (stateAfter id txs i).available - a,
            held := (stateAfter id txs i).held + a }) ∧
    (t.type = TransactionType.withdrawal →
      stateAfter id txs (i + 1) =
        { stateAfter id txs i with
            available := (stateAfter id txs i).available + a,
            held := (stateAfter id txs i).held - a })) ∧
    stateAfter id txs (j + 1) = stateAfter id txs j := by
  constructor
  · rw [stateAfter_succ id txs i hi, if_neg (by simp [hlock]),
        process_dispute_effect _ t _ _ a hti hdt ha]
    constructor <;> intro hk <;> simp [hk]
  · rw [stateAfter_succ id txs j hj]
    split
    · rfl
    · exact process_chargeback_noop _ _ _ htj (Or.inr hpr)

/-- Witness for C8 (amended) on `cexC8`: the reopening Dispute at position 3
is applied, and the Chargeback at position 4 is a no-op. -/
theorem reopened_dispute_chargeback_blocked_witness :
    (((depT 1 10).type = TransactionType.deposit →
      stateAfter 0 cexC8 4 =
        { stateAfter 0 cexC8 3 with
            available := (stateAfter 0 cexC8 3).available - 10,
            held := (stateAfter 0 cexC8 3).held + 10 }) ∧
    ((depT 1 10).type = TransactionType.withdrawal →
      stateAfter 0 cexC8 4 =
        { stateAfter 0 cexC8 3 with
            available := (stateAfter 0 cexC8 3).available + 10,
            held := (stateAfter 0 cexC8 3).held - 10 })) ∧
    stateAfter 0 cexC8 5 = stateAfter 0 cexC8 4 :=
  reopened_dispute_chargeback_blocked 0 cexC8 3 4 (depT 1 10) 10 (by norm_num [cexC8])
    (by simp +decide [cexC8, dispT])
    (by simp +decide [stateAfter, calcStateAux, Transaction.process,
      Transaction.process_deposit, Transaction.process_withdrawal,
      Transaction.process_dispute, Transaction.process_resolve,
      Transaction.process_chargeback, find_transaction, find_dispute, find_resolve,
      find_chargeback, List.find?, List.take, cexC8, depT, wdT, dispT, resT, cbT,
      initialState])
    (by simp +decide [find_transaction, List.find?, List.take, cexC8, depT, dispT, resT])
    (by simp +decide [depT])
    (by norm_num [cexC8])
    (by simp +decide [cexC8, cbT])
    (by simp +decide [find_resolve, List.find?, List.take, cexC8, depT, dispT, resT])

/-- C9: for every state and every Withdrawal record with an amount, if
`available` is at least the amount then processing it decreases `available`
and `total` by the amount (`held` unchanged); otherwise the state is returned
completely unchanged — the insufficient-funds case is a silent no-op, never
an error. -/
theorem withdrawal_semantics (t : Transaction) (s : ClientState) (log : List Transaction)
    (a : ℚ) (ht : t.type = TransactionType.withdrawal) (ha : t.amount = some a) :
    (s.available ≥ a →
      t.process s log = { s with available := s.available - a, total := s.total - a }) ∧
    (s.available < a → t.process s log = s) := by
  simp only [Transaction.process, ht, Transaction.process_withdrawal, ha]
  constructor <;> intro hc
  · rw [if_pos hc]
  · rw [if_neg (not_le.mpr hc)]

/-- Witness for C9: withdrawing 5 from an account with 12 available succeeds;
the insufficient-funds implication is vacuous at this state. -/
theorem withdrawal_semantics_witness :
    (wdT 1 5).type = TransactionType.withdrawal ∧
    (wdT 1 5).amount = some 5 ∧
    (((⟨7, 12, 3, 15, false⟩ : ClientState).available ≥ 5 →
      (wdT 1 5).process ⟨7, 12, 3, 15, false⟩ [] =
        { (⟨7, 12, 3, 15, false⟩ : ClientState) with
            available := (⟨7, 12, 3, 15, false⟩ : ClientState).available - 5,
            total := (⟨7, 12, 3, 15, false⟩ : ClientState).total - 5 }) ∧
    ((⟨7, 12, 3, 15, false⟩ : ClientState).available < 5 →
      (wdT 1 5).process ⟨7, 12, 3, 15, false⟩ [] = ⟨7, 12, 3, 15, false⟩)) :=
  ⟨by simp [wdT], by simp [wdT],
    withdrawal_semantics (wdT 1 5) ⟨7, 12, 3, 15, false⟩ [] 5 (by simp [wdT]) (by simp [wdT])⟩

/-- C10: processing a Deposit or Withdrawal record whose amount field is
absent returns the state completely unchanged — the engine is total on such
malformed records and silently ignores them. -/
theorem missing_amount_noop (t : Transaction) (s : ClientState) (log : List Transaction)
    (ht : t.type = TransactionType.deposit ∨ t.type = TransactionType.withdrawal)
    (ha : t.amount = none) : t.process s log = s := by
  rcases ht with ht | ht <;>
    simp [Transaction.process, ht, Transaction.process_deposit,
      Transaction.process_withdrawal, ha]

/-- Witness for C10: a Deposit record with no amount leaves the initial state
unchanged. -/
theorem missing_amount_noop_witness :
    ((⟨TransactionType.deposit, 0, 1, none⟩ : Transaction).type = TransactionType.deposit ∨
      (⟨TransactionType.deposit, 0, 1, none⟩ : Transaction).type =
        TransactionType.withdrawal) ∧
    (⟨TransactionType.deposit, 0, 1, none⟩ : Transaction).amount = none ∧
    (⟨TransactionType.deposit, 0, 1, none⟩ : Transaction).process (initialState 0) [] =
      initialState 0 :=
  ⟨Or.inl rfl, rfl,
    missing_amount_noop ⟨TransactionType.deposit, 0, 1, none⟩ (initialState 0) []
      (Or.inl rfl) rfl⟩
